import Mathlib

/-!
Shallow embedding of `src/The_arduino_temp_code.cpp`, a sleep-environment
temperature monitor: a classifier mapping a temperature sample to a comfort
state (`evaluateState`), a cooldown-gated alert scheduler (`playAlert`), and
the polling loop driver (`loopCycle`) over the process-wide mutable fields
(`currentState`, `systemMuted`, `lastAlertTime`, `lastSerialUpdate`).

Floats are modelled as rationals with an explicit NaN marker (`Temp`): every
comparison in the source compares the sample against one of the exactly
representable constants 20, 22, 24, 25, 26, so the truth value of each C
comparison on a finite float equals the comparison of its rational value,
and every comparison involving NaN is false, as in IEEE semantics.
`unsigned long` arithmetic (`millis()` timestamps) is `Nat` with explicit
wrap-around subtraction modulo 2^32 (`wsub`).
-/

/-- A float sample: NaN or a finite value (as a rational). -/
inductive Temp where
  | nan : Temp
  | val : ℚ → Temp
deriving DecidableEq

/-- The C `isnan` test. -/
def Temp.isNan : Temp → Bool
  | .nan => true
  | .val _ => false

/-- C `t >= c` on a float: false when `t` is NaN. -/
def Temp.cge : Temp → ℚ → Bool
  | .nan, _ => false
  | .val x, c => decide (c ≤ x)

/-- C `t <= c` on a float: false when `t` is NaN. -/
def Temp.cle : Temp → ℚ → Bool
  | .nan, _ => false
  | .val x, c => decide (x ≤ c)

/-- C `t < c` on a float: false when `t` is NaN. -/
def Temp.clt : Temp → ℚ → Bool
  | .nan, _ => false
  | .val x, c => decide (x < c)

/-- C `t > c` on a float: false when `t` is NaN. -/
def Temp.cgt : Temp → ℚ → Bool
  | .nan, _ => false
  | .val x, c => decide (c < x)

/-- C `t == c` on a float: false when `t` is NaN. -/
def Temp.ceq : Temp → ℚ → Bool
  | .nan, _ => false
  | .val x, c => decide (x = c)

/-- Constant from `#define TEMP_OPTIMAL_LOW 22`. -/
def TEMP_OPTIMAL_LOW : ℚ := 22

/-- Constant from `#define TEMP_OPTIMAL_HIGH 24`. -/
def TEMP_OPTIMAL_HIGH : ℚ := 24

/-- Constant from `#define TEMP_NEAR_LOW 20`. -/
def TEMP_NEAR_LOW : ℚ := 20

/-- Constant from `#define TEMP_NEAR_HIGH 26`. -/
def TEMP_NEAR_HIGH : ℚ := 26

/-- Constant from `#define TEMP_CLOSE 25`. -/
def TEMP_CLOSE : ℚ := 25

/-- Constant from `#define ALERT_INTERVAL 5000`. -/
def ALERT_INTERVAL : ℕ := 5000

/-- Constant from `#define SERIAL_REFRESH 1000`. -/
def SERIAL_REFRESH : ℕ := 1000

/-- The C enumeration `AlertState { IDLE, OPTIMAL, CLOSE, NEAR, MUTE }`. -/
inductive AlertState where
  | IDLE
  | OPTIMAL
  | CLOSE
  | NEAR
  | MUTE
deriving DecidableEq

/-- Modulus of Arduino `unsigned long` (32-bit). -/
def UL_MOD : ℕ := 2 ^ 32

/-- C `unsigned long` subtraction `a - b`, i.e. `(a - b) mod 2^32`. -/
def wsub (a b : ℕ) : ℕ :=
  (a % UL_MOD + (UL_MOD - b % UL_MOD)) % UL_MOD

/-- Function `evaluateState(float temp)` (lines 118-129): assigns `currentState`
from the temperature sample; here, returns the assigned state. -/
def evaluateState (temp : Temp) : AlertState :=
  if temp.cge TEMP_OPTIMAL_LOW && temp.cle TEMP_OPTIMAL_HIGH then
    .OPTIMAL
  else if temp.ceq TEMP_CLOSE then
    .CLOSE
  else if (temp.cge TEMP_NEAR_LOW && temp.clt TEMP_OPTIMAL_LOW) ||
          (temp.cgt TEMP_OPTIMAL_HIGH && temp.cle TEMP_NEAR_HIGH) then
    .NEAR
  else
    .IDLE

/-- What `playAlert` did to the buzzer in one call: `soundChime()`,
`soundBeep()`, `soundLongBeep()`, `noTone(BUZZER_PIN)`, or nothing. -/
inductive ToneAct where
  | chime
  | beep
  | longBeep
  | stopTone
  | noSound
deriving DecidableEq

/-- An alert fired: one of the three sounds was produced. -/
def firesTone : ToneAct → Bool
  | .chime => true
  | .beep => true
  | .longBeep => true
  | .stopTone => false
  | .noSound => false

/-- Function `playAlert(AlertState state)` (lines 132-153): reads `now = millis()`
and the global `lastAlertTime`; returns the buzzer action and the new value
of `lastAlertTime`. -/
def playAlert (state : AlertState) (now lastAlertTime : ℕ) : ToneAct × ℕ :=
  if state = .OPTIMAL ∧ ALERT_INTERVAL ≤ wsub now lastAlertTime then
    (.chime, now)
  else if state = .CLOSE ∧ ALERT_INTERVAL ≤ wsub now lastAlertTime then
    (.beep, now)
  else if state = .NEAR then
    (.longBeep, now)
  else if state = .IDLE then
    (.stopTone, lastAlertTime)
  else
    (.noSound, lastAlertTime)

/-- The process-wide mutable fields (lines 20, 25-27). -/
structure SysState where
  currentState : AlertState
  systemMuted : Bool
  lastAlertTime : ℕ
  lastSerialUpdate : ℕ
deriving DecidableEq

/-- Globals at startup: `currentState = IDLE`, `systemMuted = false`,
`lastAlertTime = 0`, `lastSerialUpdate = 0`. -/
def initState : SysState :=
  ⟨.IDLE, false, 0, 0⟩

/-- The external inputs one `loop()` iteration consumes: the button level,
the two DHT channel reads, and the two `millis()` reads (line 61 and the one
inside `playAlert`, line 133). -/
structure CycleInput where
  buttonLow : Bool
  sensorTemp : Temp
  sensorHumidity : Temp
  nowLoop : ℕ
  nowAlert : ℕ
deriving DecidableEq

/-- Function `checkButton()` (lines 86-92): whenever the button reads LOW, set
`systemMuted = true`; it is never reset anywhere in the program. -/
def checkButton (s : SysState) (buttonLow : Bool) : SysState :=
  if buttonLow then
    ⟨s.currentState, true, s.lastAlertTime, s.lastSerialUpdate⟩
  else
    s

/-- Function `readSensors(float &temp, float &humidity)` (lines 95-104): writes
both channels, and on NaN in either logs a warning, delays, and returns.
The `return` at line 102 exits only `readSensors`, not `loop`, so the
(possibly NaN) values are handed back to the caller either way. The `Bool`
records whether the warning was logged. -/
def readSensors (t h : Temp) : (Temp × Temp) × Bool :=
  ((t, h), t.isNan || h.isNan)

/-- One iteration of `void loop()` (lines 48-72): button check, muted
short-circuit (stop alerts, show message, return), sensor read, dashboard
refresh bookkeeping, state evaluation, alert playing. Returns the new
globals and the buzzer action of the cycle. -/
def loopCycle (s0 : SysState) (i : CycleInput) : SysState × ToneAct :=
  let s1 := checkButton s0 i.buttonLow
  if s1.systemMuted then
    (s1, .stopTone)
  else
    let rd := readSensors i.sensorTemp i.sensorHumidity
    let temperature := rd.1.1
    let now := i.nowLoop
    let s2 :=
      if SERIAL_REFRESH ≤ wsub now s1.lastSerialUpdate then
        ⟨s1.currentState, s1.systemMuted, s1.lastAlertTime, now⟩
      else
        s1
    let s3 : SysState :=
      ⟨evaluateState temperature, s2.systemMuted, s2.lastAlertTime, s2.lastSerialUpdate⟩
    let pa := playAlert s3.currentState i.nowAlert s3.lastAlertTime
    (⟨s3.currentState, s3.systemMuted, pa.2, s3.lastSerialUpdate⟩, pa.1)

/-- States reachable from startup by running `loop()` iterations. -/
inductive Reachable : SysState → Prop where
  | init : Reachable initState
  | step : ∀ s i, Reachable s → Reachable (loopCycle s i).1

/-- With a monotonic, non-overflowing clock, C unsigned subtraction is plain
subtraction. -/
lemma wsub_eq_sub (a b : ℕ) (hba : b ≤ a) (ha : a < UL_MOD) : wsub a b = a - b := by
  unfold wsub UL_MOD at *
  norm_num at *
  omega

/-- Helper: `evaluateState` only assigns `OPTIMAL`, `CLOSE`, `NEAR` or `IDLE`,
never `MUTE`. -/
lemma evaluateState_ne_MUTE (t : Temp) : evaluateState t ≠ AlertState.MUTE := by
  unfold evaluateState
  split_ifs <;> simp

/-- C1, counterexample: the claim assigns every finite temperature outside the
Optimal range and outside the Near ranges (25 excluded) to `Idle`; `t = 25`
is such a temperature, yet the classifier returns `CLOSE`, not `IDLE`. -/
theorem C1_counterexample :
    evaluateState (Temp.val 25) = AlertState.CLOSE ∧
    evaluateState (Temp.val 25) ≠ AlertState.IDLE ∧
    ¬ ((22 ≤ (25 : ℚ) ∧ (25 : ℚ) ≤ 24) ∨
       ((20 ≤ (25 : ℚ) ∧ (25 : ℚ) < 22) ∨
        (24 < (25 : ℚ) ∧ (25 : ℚ) ≤ 26 ∧ (25 : ℚ) ≠ 25))) := by
  refine ⟨by decide, by decide, ?_⟩
  norm_num

/-- C1 (amended): for every finite `t`, `classify(t)` is `OPTIMAL` iff
`22 <= t <= 24`, `CLOSE` iff `t = 25`, `NEAR` iff `t` is in `[20, 22)` or in
`(24, 26]` excluding 25, and `IDLE` for every other finite `t`
(that is, `t < 20` or `t > 26`). -/
theorem C1_classifier_thresholds (q : ℚ) :
    (evaluateState (Temp.val q) = AlertState.OPTIMAL ↔ 22 ≤ q ∧ q ≤ 24) ∧
    (evaluateState (Temp.val q) = AlertState.CLOSE ↔ q = 25) ∧
    (evaluateState (Temp.val q) = AlertState.NEAR ↔
      ((20 ≤ q ∧ q < 22) ∨ (24 < q ∧ q ≤ 26 ∧ q ≠ 25))) ∧
    (evaluateState (Temp.val q) = AlertState.IDLE ↔ (q < 20 ∨ 26 < q)) := by
  unfold evaluateState Temp.cge Temp.cle Temp.ceq Temp.clt Temp.cgt
    TEMP_OPTIMAL_LOW TEMP_OPTIMAL_HIGH TEMP_NEAR_LOW TEMP_NEAR_HIGH TEMP_CLOSE
  simp only [Bool.and_eq_true, Bool.or_eq_true, decide_eq_true_eq]
  split_ifs with h1 h2 h3
  · refine ⟨by simp [h1], ?_, ?_, ?_⟩
    · constructor
      · intro h; cases h
      · intro h; subst h; exfalso; linarith [h1.2]
    · constructor
      · intro h; cases h
      · rintro (⟨ha, hb⟩ | ⟨ha, hb, hc⟩) <;> exfalso <;> linarith [h1.1, h1.2]
    · constructor
      · intro h; cases h
      · rintro (h | h) <;> exfalso <;> linarith [h1.1, h1.2]
  · subst h2
    refine ⟨?_, by simp, ?_, ?_⟩
    · constructor
      · intro h; cases h
      · intro h; exact absurd h h1
    · constructor
      · intro h; cases h
      · rintro (⟨ha, hb⟩ | ⟨ha, hb, hc⟩) <;> exfalso
        · linarith
        · exact hc rfl
    · constructor
      · intro h; cases h
      · rintro (h | h) <;> linarith
  · refine ⟨?_, ?_, ?_, ?_⟩
    · constructor
      · intro h; cases h
      · intro h; exact absurd h h1
    · constructor
      · intro h; cases h
      · intro h; exact absurd h h2
    · constructor
      · intro _
        rcases h3 with ⟨ha, hb⟩ | ⟨ha, hb⟩
        · exact Or.inl ⟨ha, hb⟩
        · exact Or.inr ⟨ha, hb, h2⟩
      · intro _; rfl
    · constructor
      · intro h; cases h
      · rintro (h | h) <;> exfalso <;>
          rcases h3 with ⟨ha, hb⟩ | ⟨ha, hb⟩ <;> linarith
  · refine ⟨?_, ?_, ?_, ?_⟩
    · constructor
      · intro h; cases h
      · intro h; exact absurd h h1
    · constructor
      · intro h; cases h
      · intro h; exact absurd h h2
    · constructor
      · intro h; cases h
      · rintro (⟨ha, hb⟩ | ⟨ha, hb, hc⟩) <;> exact h3 (by tauto)
    · constructor
      · intro _
        push_neg at h1 h3
        by_cases hq : q < 20
        · exact Or.inl hq
        · push_neg at hq
          right
          exact h3.2 (h1 (h3.1 hq))
      · intro _; rfl

/-- Helper: `playAlert` either stamps `lastAlertTime` with the current clock or
leaves it unchanged. -/
lemma playAlert_snd (st : AlertState) (now last : ℕ) :
    (playAlert st now last).2 = now ∨ (playAlert st now last).2 = last := by
  unfold playAlert
  split_ifs <;> simp

/-- C5: exact-equality semantics for `Close` - `classify(25.0) = CLOSE`, while
`classify(25.0001)` is not `CLOSE` (the value falls through to another
state). -/
theorem C5_close_exact_equality :
    evaluateState (Temp.val 25) = AlertState.CLOSE ∧
    evaluateState (Temp.val (250001 / 10000)) ≠ AlertState.CLOSE := by
  refine ⟨by decide, ?_⟩
  norm_num [evaluateState, Temp.ceq, Temp.cge, Temp.cle, Temp.clt, Temp.cgt,
    TEMP_OPTIMAL_LOW, TEMP_OPTIMAL_HIGH, TEMP_NEAR_LOW, TEMP_NEAR_HIGH, TEMP_CLOSE]
  decide

/-- C9: the classifier is total on NaN - every threshold comparison on a NaN
sample is false, so `evaluateState` assigns `IDLE`. -/
theorem C9_nan_classifies_idle :
    evaluateState Temp.nan = AlertState.IDLE ∧
    Temp.cge Temp.nan TEMP_OPTIMAL_LOW = false ∧
    Temp.cle Temp.nan TEMP_OPTIMAL_HIGH = false ∧
    Temp.ceq Temp.nan TEMP_CLOSE = false ∧
    Temp.cge Temp.nan TEMP_NEAR_LOW = false ∧
    Temp.clt Temp.nan TEMP_OPTIMAL_LOW = false ∧
    Temp.cgt Temp.nan TEMP_OPTIMAL_HIGH = false ∧
    Temp.cle Temp.nan TEMP_NEAR_HIGH = false := by
  decide

/-- C3: asymmetry law for `Near` - in state `NEAR`, `playAlert` fires on every
call regardless of the elapsed time, and unconditionally sets
`lastAlertTime = now`. -/
theorem C3_near_always_fires (now last : ℕ) :
    firesTone (playAlert AlertState.NEAR now last).1 = true ∧
    (playAlert AlertState.NEAR now last).2 = now := by
  constructor <;> simp [playAlert, firesTone]

/-- C2: cooldown law for the gated states - for `OPTIMAL` and `CLOSE`,
`playAlert` fires exactly when `now - lastAlertTime >= ALERT_INTERVAL`
(5000 ms); on fire it sets `lastAlertTime = now`, otherwise it leaves it
unchanged; and after a fire at time `T`, a call at `T + interval - 1` does
not fire while a call at `T + interval` fires. -/
theorem C2_cooldown_law (st : AlertState)
    (hst : st = AlertState.OPTIMAL ∨ st = AlertState.CLOSE)
    (now last : ℕ) (hml : last ≤ now) (hub : now < UL_MOD) :
    (firesTone (playAlert st now last).1 = true ↔ ALERT_INTERVAL ≤ now - last) ∧
    (firesTone (playAlert st now last).1 = true → (playAlert st now last).2 = now) ∧
    (firesTone (playAlert st now last).1 = false → (playAlert st now last).2 = last) ∧
    (∀ T, T + ALERT_INTERVAL < UL_MOD →
      firesTone (playAlert st (T + ALERT_INTERVAL - 1) T).1 = false ∧
      firesTone (playAlert st (T + ALERT_INTERVAL) T).1 = true) := by
  have key : ∀ a b : ℕ, b ≤ a → a < UL_MOD →
      (firesTone (playAlert st a b).1 = true ↔ ALERT_INTERVAL ≤ a - b) ∧
      (firesTone (playAlert st a b).1 = true → (playAlert st a b).2 = a) ∧
      (firesTone (playAlert st a b).1 = false → (playAlert st a b).2 = b) := by
    intro a b hba hub2
    have hw := wsub_eq_sub a b hba hub2
    rcases hst with rfl | rfl <;>
      simp only [playAlert, hw] <;>
      split_ifs with h <;>
      simp_all [firesTone]
  obtain ⟨k1, k2, k3⟩ := key now last hml hub
  refine ⟨k1, k2, k3, fun T hT => ?_⟩
  have hai : ALERT_INTERVAL = 5000 := rfl
  have h1 := (key (T + ALERT_INTERVAL - 1) T (by omega) (by omega)).1
  have h2 := (key (T + ALERT_INTERVAL) T (by omega) (by omega)).1
  refine ⟨Bool.eq_false_iff.mpr (fun hb => ?_), h2.mpr (by omega)⟩
  have := h1.mp hb
  omega

/-- C2, witness: at concrete times, a fire at 6000 with `lastAlertTime = 0`,
then no fire at 10999 and a fire at 11000 after a fire stamped 6000. -/
theorem C2_cooldown_law_witness :
    firesTone (playAlert AlertState.OPTIMAL 6000 0).1 = true ∧
    (playAlert AlertState.OPTIMAL 6000 0).2 = 6000 ∧
    firesTone (playAlert AlertState.OPTIMAL 10999 6000).1 = false ∧
    firesTone (playAlert AlertState.OPTIMAL 11000 6000).1 = true := by
  have h := C2_cooldown_law AlertState.OPTIMAL (Or.inl rfl) 6000 0 (by omega)
    (by norm_num [UL_MOD])
  have h4 := h.2.2.2 6000 (by norm_num [UL_MOD, ALERT_INTERVAL])
  have hf : firesTone (playAlert AlertState.OPTIMAL 6000 0).1 = true :=
    h.1.mpr (by norm_num [ALERT_INTERVAL])
  norm_num [ALERT_INTERVAL] at h4
  exact ⟨hf, h.2.1 hf, h4.1, h4.2⟩

/-- C4: on an invalid (NaN) sensor sample the cycle does NOT skip the core
logic - the warning is logged, but the `return` in `readSensors` exits only
that helper, so `evaluateState` still runs on the NaN sample and moves
`currentState` from `OPTIMAL` to `IDLE`: a state transition occurs, contrary
to the claim. (`lastAlertTime` does stay unchanged, since the `IDLE` branch
of `playAlert` never stamps it.) -/
theorem C4_invalid_sample_still_evaluates :
    (readSensors Temp.nan (Temp.val 50)).2 = true ∧
    (loopCycle ⟨AlertState.OPTIMAL, false, 0, 0⟩
      ⟨false, Temp.nan, Temp.val 50, 1000, 1000⟩).1.currentState = AlertState.IDLE ∧
    AlertState.IDLE ≠ AlertState.OPTIMAL ∧
    (loopCycle ⟨AlertState.OPTIMAL, false, 0, 0⟩
      ⟨false, Temp.nan, Temp.val 50, 1000, 1000⟩).1.lastAlertTime = 0 := by
  decide

/-- C6: while the mute flag is set, a loop cycle changes neither the comfort
state, nor the alert timestamp, nor the dashboard timestamp, and the cycle's
only transducer action is the unconditional stop issued by the loop
driver. -/
theorem C6_muted_cycle_skips_core (s : SysState) (i : CycleInput)
    (hm : s.systemMuted = true) :
    (loopCycle s i).1.currentState = s.currentState ∧
    (loopCycle s i).1.lastAlertTime = s.lastAlertTime ∧
    (loopCycle s i).1.lastSerialUpdate = s.lastSerialUpdate ∧
    (loopCycle s i).2 = ToneAct.stopTone := by
  unfold loopCycle checkButton
  rcases hb : i.buttonLow <;> simp [hb, hm]

/-- C6, witness at a concrete muted state. -/
theorem C6_muted_cycle_skips_core_witness :
    (loopCycle ⟨AlertState.NEAR, true, 7, 3⟩
      ⟨false, Temp.val 23, Temp.val 50, 9000, 9000⟩).1.currentState = AlertState.NEAR ∧
    (loopCycle ⟨AlertState.NEAR, true, 7, 3⟩
      ⟨false, Temp.val 23, Temp.val 50, 9000, 9000⟩).1.lastAlertTime = 7 ∧
    (loopCycle ⟨AlertState.NEAR, true, 7, 3⟩
      ⟨false, Temp.val 23, Temp.val 50, 9000, 9000⟩).2 = ToneAct.stopTone := by
  have h := C6_muted_cycle_skips_core ⟨AlertState.NEAR, true, 7, 3⟩
    ⟨false, Temp.val 23, Temp.val 50, 9000, 9000⟩ rfl
  exact ⟨h.1, h.2.1, h.2.2.2⟩

/-- C7: the mute flag is false at startup; once true it stays true across any
cycle; while false it becomes true exactly when the mute button reads LOW,
and stays false otherwise - so it flips false-to-true at most once and is
never cleared. -/
theorem C7_mute_flag_sticky :
    initState.systemMuted = false ∧
    (∀ s i, s.systemMuted = true → (loopCycle s i).1.systemMuted = true) ∧
    (∀ s i, s.systemMuted = false → i.buttonLow = false →
      (loopCycle s i).1.systemMuted = false) ∧
    (∀ s i, s.systemMuted = false → i.buttonLow = true →
      (loopCycle s i).1.systemMuted = true) := by
  refine ⟨rfl, ?_, ?_, ?_⟩ <;>
    intro s i h <;>
    unfold loopCycle checkButton <;>
    rcases hb : i.buttonLow <;>
    simp_all <;>
    split_ifs <;>
    simp_all

/-- C7, witness: stickiness and button-triggered setting at concrete states. -/
theorem C7_mute_flag_sticky_witness :
    (loopCycle ⟨AlertState.IDLE, true, 0, 0⟩
      ⟨false, Temp.val 23, Temp.val 50, 0, 0⟩).1.systemMuted = true ∧
    (loopCycle initState ⟨true, Temp.val 23, Temp.val 50, 0, 0⟩).1.systemMuted = true := by
  exact ⟨C7_mute_flag_sticky.2.1 ⟨AlertState.IDLE, true, 0, 0⟩
      ⟨false, Temp.val 23, Temp.val 50, 0, 0⟩ rfl,
    C7_mute_flag_sticky.2.2.2 initState ⟨true, Temp.val 23, Temp.val 50, 0, 0⟩ rfl rfl⟩

/-- Helper: across one loop cycle, `lastAlertTime` is either untouched or set
to the clock value `playAlert` read. -/
lemma loopCycle_lastAlertTime (s : SysState) (i : CycleInput) :
    (loopCycle s i).1.lastAlertTime = s.lastAlertTime ∨
    (loopCycle s i).1.lastAlertTime = i.nowAlert := by
  unfold loopCycle checkButton
  rcases hb : i.buttonLow <;> simp [hb] <;> split_ifs <;>
    first
      | exact Or.inl rfl
      | exact Or.symm (playAlert_snd
          (evaluateState (readSensors i.sensorTemp i.sensorHumidity).1.1)
          i.nowAlert s.lastAlertTime)

/-- C8: `lastAlertTime` is written only by the alert scheduler at the moment an
alert fires (set to the current clock value, unchanged in every other case -
in particular on muted cycles), so under a monotonic clock it never
decreases across a cycle. -/
theorem C8_last_alert_only_scheduler :
    (∀ st now last,
      (firesTone (playAlert st now last).1 = true → (playAlert st now last).2 = now) ∧
      (firesTone (playAlert st now last).1 = false → (playAlert st now last).2 = last)) ∧
    (∀ s i, s.systemMuted = true → (loopCycle s i).1.lastAlertTime = s.lastAlertTime) ∧
    (∀ s i, s.lastAlertTime ≤ i.nowAlert →
      s.lastAlertTime ≤ (loopCycle s i).1.lastAlertTime) := by
  refine ⟨?_, ?_, ?_⟩
  · intro st now last
    unfold playAlert
    split_ifs <;> simp [firesTone]
  · intro s i h
    unfold loopCycle checkButton
    rcases hb : i.buttonLow <;> simp [hb, h]
  · intro s i h
    rcases loopCycle_lastAlertTime s i with heq | heq <;> rw [heq]
    exact h

/-- C8, witness at concrete inputs. -/
theorem C8_last_alert_only_scheduler_witness :
    (playAlert AlertState.NEAR 42 7).2 = 42 ∧
    (loopCycle initState ⟨false, Temp.val 23, Temp.val 50, 0, 0⟩).1.lastAlertTime ≥
      initState.lastAlertTime := by
  exact ⟨(C8_last_alert_only_scheduler.1 AlertState.NEAR 42 7).1 (by decide),
    C8_last_alert_only_scheduler.2.2 initState
      ⟨false, Temp.val 23, Temp.val 50, 0, 0⟩ (by decide)⟩

/-- C10: in every reachable state, `currentState` is never the `MUTE` enum
variant - `evaluateState` only assigns the four temperature-driven variants,
and no other code assigns `currentState`; muting is tracked by the separate
boolean flag. -/
theorem C10_state_never_MUTE (s : SysState) (h : Reachable s) :
    s.currentState ≠ AlertState.MUTE ∧
    (∀ t, evaluateState t ≠ AlertState.MUTE) := by
  refine ⟨?_, evaluateState_ne_MUTE⟩
  induction h with
  | init => decide
  | step s i hs ih =>
      unfold loopCycle checkButton
      rcases hb : i.buttonLow <;> simp [hb] <;>
        first
          | exact ih
          | (split_ifs <;> first | exact ih | exact evaluateState_ne_MUTE _)

/-- C10, witness at the startup state. -/
theorem C10_state_never_MUTE_witness :
    initState.currentState ≠ AlertState.MUTE :=
  (C10_state_never_MUTE initState Reachable.init).1
